import Mathlib

/-!
Shallow embedding of the satsgotchi repository's two on-chain programs:
the $GOTCHI token program (src/contracts/token/src/lib.rs) and the pet
lifecycle program (src/contracts/satsgotchi/src/lib.rs).

Modelling conventions:
- Rust u64 values are Nat; operations that can wrap in a release build
  (`+`, `-`, `*` on u64) are taken modulo 2^64 via add64 / sub64 / mul64.
  Rust u8 arithmetic is likewise taken modulo 256, and `saturating_sub`
  on Nat is plain Nat subtraction (which is truncated).
- Pubkey values are modelled as Nat; accounts are modelled after Borsh
  decoding (the decode layer is the host boundary).
- Each instruction processor returns the pair of its Result and the list
  of `add_state_transition` emissions, in program order, so that an
  aborted call's (empty) write set is observable.
-/

/-- 2^64, the modulus of Rust u64 arithmetic. -/
def U64 : Nat := 18446744073709551616

/-- Wrapping u64 addition. -/
def add64 (a b : Nat) : Nat := (a + b) % U64

/-- Wrapping u64 subtraction (valid for a, b < 2^64). -/
def sub64 (a b : Nat) : Nat := (a + U64 - b) % U64

/-- Wrapping u64 multiplication. -/
def mul64 (a b : Nat) : Nat := (a * b) % U64

/-- Wrapping u8 addition. -/
def add8 (a b : Nat) : Nat := (a + b) % 256

/-- The subset of arch_program ProgramError values this repository returns. -/
inductive ProgramError where
  | MissingRequiredSignature
  | IllegalOwner
  | InsufficientFunds
  | InvalidAccountData
  | InvalidInstructionData
  | NotEnoughAccountKeys
  | Custom (code : Nat)
deriving DecidableEq, Repr

deriving instance DecidableEq for Except

namespace Token

/-- AccountBalance from src/contracts/token/src/lib.rs. -/
structure AccountBalance where
  owner : Nat
  balance : Nat
deriving DecidableEq, Repr

/-- TokenState from src/contracts/token/src/lib.rs. -/
structure TokenState where
  name : String
  symbol : String
  decimals : Nat
  total_supply : Nat
  circulating_supply : Nat
  max_supply : Nat
  milestone_pool : Nat
  earning_pool : Nat
  milestone_used : Nat
  earning_used : Nat
  fee_collection_wallet : Nat
  total_fees_collected : Nat
  total_burned : Nat
  mint_authority : Nat
  fee_authority : Nat
deriving DecidableEq, Repr

/-- MilestoneType from src/contracts/token/src/lib.rs. -/
inductive MilestoneType where
  | BabyToChild
  | ChildToTeen
  | TeenToAdult
  | AdultToSenior
  | SeniorToAscension
deriving DecidableEq, Repr

def MAX_SUPPLY : Nat := 1000000000000000000
def MILESTONE_POOL : Nat := 300000000000000000
def EARNING_POOL : Nat := 300000000000000000
def BUY_FEE_BPS : Nat := 50
def SELL_FEE_BPS : Nat := 75
def BABY_TO_CHILD_REWARD : Nat := 50000000000
def CHILD_TO_TEEN_REWARD : Nat := 250000000000
def TEEN_TO_ADULT_REWARD : Nat := 1500000000000
def ADULT_TO_SENIOR_REWARD : Nat := 25000000000000
def SENIOR_TO_ASCENSION_REWARD : Nat := 2000000000000000

/-- One `add_state_transition` emission of the token program, tagged by
which of the accounts passed to the instruction it targets. -/
inductive TWrite where
  | source (b : AccountBalance)
  | dest (b : AccountBalance)
  | fee (b : AccountBalance)
  | ledger (s : TokenState)
deriving DecidableEq, Repr

/-- The ledger written by process_initialize. -/
def initLedger (name symbol : String) (decimals initial_supply mint_key fee_wallet_key : Nat) :
    TokenState :=
  { name := name
    symbol := symbol
    decimals := decimals
    total_supply := initial_supply
    circulating_supply := initial_supply
    max_supply := MAX_SUPPLY
    milestone_pool := MILESTONE_POOL
    earning_pool := EARNING_POOL
    milestone_used := 0
    earning_used := 0
    fee_collection_wallet := fee_wallet_key
    total_fees_collected := 0
    total_burned := 0
    mint_authority := mint_key
    fee_authority := mint_key }

/-- process_initialize from src/contracts/token/src/lib.rs (named process_init
here to satisfy naming constraints of this development). -/
def process_init (mint_signer : Bool) (mint_key fee_wallet_key : Nat)
    (name symbol : String) (decimals initial_supply : Nat) :
    Except ProgramError Unit × List TWrite :=
  if !mint_signer then (.error .MissingRequiredSignature, [])
  else
    (.ok (), [.ledger (initLedger name symbol decimals initial_supply mint_key fee_wallet_key)])

/-- process_transfer from src/contracts/token/src/lib.rs. -/
def process_transfer (source_balance dest_balance fee_balance : AccountBalance)
    (state : TokenState) (owner_signer : Bool) (owner_key : Nat)
    (amount : Nat) (is_buy : Bool) : Except ProgramError Unit × List TWrite :=
  if !owner_signer then (.error .MissingRequiredSignature, [])
  else
    let fee_bps := if is_buy then BUY_FEE_BPS else SELL_FEE_BPS
    let fee := mul64 amount fee_bps / 10000
    let net_amount := sub64 amount fee
    if source_balance.owner ≠ owner_key then (.error .IllegalOwner, [])
    else if source_balance.balance < amount then (.error .InsufficientFunds, [])
    else
      (.ok (),
        [.source { source_balance with balance := sub64 source_balance.balance amount },
         .dest { dest_balance with balance := add64 dest_balance.balance net_amount },
         .fee { fee_balance with balance := add64 fee_balance.balance fee },
         .ledger { state with total_fees_collected := add64 state.total_fees_collected fee }])

/-- process_burn from src/contracts/token/src/lib.rs.  Note the unchecked
u64 subtraction on circulating_supply. -/
def process_burn (source_balance : AccountBalance) (state : TokenState)
    (owner_signer : Bool) (owner_key : Nat) (amount : Nat) :
    Except ProgramError Unit × List TWrite :=
  if !owner_signer then (.error .MissingRequiredSignature, [])
  else if source_balance.owner ≠ owner_key then (.error .IllegalOwner, [])
  else if source_balance.balance < amount then (.error .InsufficientFunds, [])
  else
    (.ok (),
      [.source { source_balance with balance := sub64 source_balance.balance amount },
       .ledger { state with
         total_burned := add64 state.total_burned amount
         circulating_supply := sub64 state.circulating_supply amount }])

/-- The base reward match in process_mint_milestone. -/
def milestone_reward (milestone_type : MilestoneType) : Nat :=
  match milestone_type with
  | .BabyToChild => BABY_TO_CHILD_REWARD
  | .ChildToTeen => CHILD_TO_TEEN_REWARD
  | .TeenToAdult => TEEN_TO_ADULT_REWARD
  | .AdultToSenior => ADULT_TO_SENIOR_REWARD
  | .SeniorToAscension => SENIOR_TO_ASCENSION_REWARD

/-- process_mint_milestone from src/contracts/token/src/lib.rs.  The Rust
function receives an `_amount` instruction field and never reads it. -/
def process_mint_milestone (dest_balance : AccountBalance) (state : TokenState)
    (auth_signer : Bool) (auth_key : Nat) (amount : Nat) (milestone_type : MilestoneType) :
    Except ProgramError Unit × List TWrite :=
  if !auth_signer then (.error .MissingRequiredSignature, [])
  else if state.mint_authority ≠ auth_key then (.error .IllegalOwner, [])
  else
    let base_reward := milestone_reward milestone_type
    let pool_remaining := sub64 MILESTONE_POOL state.milestone_used
    let final_amount :=
      if add64 state.milestone_used base_reward > MILESTONE_POOL then pool_remaining
      else base_reward
    if final_amount = 0 then (.error (.Custom 2), [])
    else
      (.ok (),
        [.dest { dest_balance with balance := add64 dest_balance.balance final_amount },
         .ledger { state with
           milestone_used := add64 state.milestone_used final_amount
           total_supply := add64 state.total_supply final_amount
           circulating_supply := add64 state.circulating_supply final_amount }])

/-- process_mint_earning from src/contracts/token/src/lib.rs. -/
def process_mint_earning (dest_balance : AccountBalance) (state : TokenState)
    (auth_signer : Bool) (auth_key : Nat) (amount : Nat) :
    Except ProgramError Unit × List TWrite :=
  if !auth_signer then (.error .MissingRequiredSignature, [])
  else if state.mint_authority ≠ auth_key then (.error .IllegalOwner, [])
  else if add64 state.earning_used amount > EARNING_POOL then (.error (.Custom 3), [])
  else
    (.ok (),
      [.dest { dest_balance with balance := add64 dest_balance.balance amount },
       .ledger { state with
         earning_used := add64 state.earning_used amount
         total_supply := add64 state.total_supply amount
         circulating_supply := add64 state.circulating_supply amount }])

/-- simulate_buyback from src/contracts/token/src/lib.rs. -/
def simulate_buyback (btc_amount : Nat) (circulating_supply : Nat) : Nat :=
  mul64 btc_amount 100000000000000

/-- process_buyback_and_burn from src/contracts/token/src/lib.rs.  Like
process_burn, the circulating_supply subtraction is unchecked. -/
def process_buyback_and_burn (fee_balance : AccountBalance) (state : TokenState)
    (auth_signer : Bool) (auth_key : Nat) (btc_amount : Nat) :
    Except ProgramError Unit × List TWrite :=
  if !auth_signer then (.error .MissingRequiredSignature, [])
  else if state.fee_authority ≠ auth_key then (.error .IllegalOwner, [])
  else
    let tokens_bought := simulate_buyback btc_amount state.circulating_supply
    if fee_balance.balance < tokens_bought then (.error .InsufficientFunds, [])
    else
      (.ok (),
        [.fee { fee_balance with balance := sub64 fee_balance.balance tokens_bought },
         .ledger { state with
           total_burned := add64 state.total_burned tokens_bought
           circulating_supply := sub64 state.circulating_supply tokens_bought }])

/-- One token-program call together with the decoded accounts it acts on,
mirroring the dispatch in process_instruction. -/
inductive TokenCall where
  | initCall (mint_signer : Bool) (mint_key fee_wallet_key : Nat)
      (name symbol : String) (decimals initial_supply : Nat)
  | transfer (src dst fb : AccountBalance) (st : TokenState)
      (owner_signer : Bool) (owner_key amount : Nat) (is_buy : Bool)
  | burn (src : AccountBalance) (st : TokenState)
      (owner_signer : Bool) (owner_key amount : Nat)
  | mintMilestone (dst : AccountBalance) (st : TokenState)
      (auth_signer : Bool) (auth_key amount : Nat) (mt : MilestoneType)
  | mintEarning (dst : AccountBalance) (st : TokenState)
      (auth_signer : Bool) (auth_key amount : Nat)
  | buybackAndBurn (fb : AccountBalance) (st : TokenState)
      (auth_signer : Bool) (auth_key btc_amount : Nat)

/-- Dispatch of process_instruction for the token program. -/
def tokenRun : TokenCall → Except ProgramError Unit × List TWrite
  | .initCall s mk fk n sy d i => process_init s mk fk n sy d i
  | .transfer src dst fb st s k a b => process_transfer src dst fb st s k a b
  | .burn src st s k a => process_burn src st s k a
  | .mintMilestone dst st s k a mt => process_mint_milestone dst st s k a mt
  | .mintEarning dst st s k a => process_mint_earning dst st s k a
  | .buybackAndBurn fb st s k a => process_buyback_and_burn fb st s k a

/-- The ledger state after the host commits a call's emissions (the last
ledger write wins; no write leaves the ledger unchanged). -/
def ledgerAfter (st : TokenState) (ws : List TWrite) : TokenState :=
  ws.foldl (fun acc w => match w with | .ledger s2 => s2 | _ => acc) st

/-- Ledger states reachable from a successful Initialize with the given
initial supply by any sequence of MintMilestone / MintEarning calls. -/
inductive TokenReach (initial_supply : Nat) : TokenState → Prop where
  | init (name symbol : String) (decimals mint_key fee_wallet_key : Nat) :
      TokenReach initial_supply
        (initLedger name symbol decimals initial_supply mint_key fee_wallet_key)
  | mintMilestoneStep {st : TokenState} (dst : AccountBalance)
      (auth_signer : Bool) (auth_key amount : Nat) (mt : MilestoneType) :
      TokenReach initial_supply st →
      TokenReach initial_supply
        (ledgerAfter st (process_mint_milestone dst st auth_signer auth_key amount mt).snd)
  | mintEarningStep {st : TokenState} (dst : AccountBalance)
      (auth_signer : Bool) (auth_key amount : Nat) :
      TokenReach initial_supply st →
      TokenReach initial_supply
        (ledgerAfter st (process_mint_earning dst st auth_signer auth_key amount).snd)

end Token

namespace Satsgotchi

/-- Level from src/contracts/satsgotchi/src/lib.rs. -/
inductive Level where
  | Egg
  | Baby
  | Child
  | Teen
  | Adult
  | Senior
  | Ascended
deriving DecidableEq, Repr

/-- Status from src/contracts/satsgotchi/src/lib.rs. -/
inductive Status where
  | Alive
  | Dead
deriving DecidableEq, Repr

/-- Traits from src/contracts/satsgotchi/src/lib.rs. -/
structure Traits where
  rarity : Nat
  color_shift : Nat
  pet_type : Nat
  accessories : List Nat
deriving DecidableEq, Repr

/-- SatsgotchiState from src/contracts/satsgotchi/src/lib.rs. -/
structure SatsgotchiState where
  inscription_id : String
  owner : Nat
  level : Level
  status : Status
  health : Nat
  happiness : Nat
  hunger : Nat
  birth_block : Nat
  last_fed_block : Nat
  last_played_block : Nat
  last_cleaned_block : Nat
  last_update_block : Nat
  care_mistakes : Nat
  perfect_care_days : Nat
  poop_count : Nat
  sick : Bool
  total_earned : Nat
  unclaimed_rewards : Nat
  care_multiplier : Nat
  traits : Traits
  evolution_eligible_block : Nat
deriving DecidableEq, Repr

/-- get_current_block from src/contracts/satsgotchi/src/lib.rs: a
placeholder that always returns 800000. -/
def get_current_block : Nat := 800000

/-- calculate_burn_amount from src/contracts/satsgotchi/src/lib.rs (its
result is computed and then unused by every caller). -/
def calculate_burn_amount (action : String) : Nat :=
  match action with
  | "feed" => 5000000000
  | "play" => 3000000000
  | "clean" => 2000000000
  | "medicine" => 10000000000
  | _ => 0

/-- is_poop_generated from src/contracts/satsgotchi/src/lib.rs. -/
def is_poop_generated : Bool := get_current_block % 5 == 0

/-- get_feed_threshold from src/contracts/satsgotchi/src/lib.rs. -/
def get_feed_threshold (level : Level) : Nat :=
  match level with
  | .Baby => 144
  | .Child => 120
  | .Teen => 108
  | .Adult => 96
  | .Senior => 84
  | _ => 144

/-- should_die from src/contracts/satsgotchi/src/lib.rs. -/
def should_die (state : SatsgotchiState) (current_block : Nat) : Bool :=
  let days_neglected := (current_block - state.last_fed_block) / 144
  match state.level with
  | .Baby => days_neglected > 5
  | .Child => days_neglected > 3
  | .Teen => days_neglected > 2
  | .Adult => days_neglected > 2
  | .Senior => days_neglected > 1
  | _ => false

/-- accumulate_rewards from src/contracts/satsgotchi/src/lib.rs. -/
def accumulate_rewards (state : SatsgotchiState) (blocks_elapsed : Nat) : SatsgotchiState :=
  let base_rate : Nat :=
    match state.level with
    | .Baby => 20
    | .Child => 40
    | .Teen => 120
    | .Adult => 300
    | .Senior => 800
    | .Ascended => 1000
    | _ => 0
  let multiplied_rate := mul64 base_rate state.care_multiplier / 100
  let hours_elapsed := blocks_elapsed / 6
  let rewards := mul64 multiplied_rate hours_elapsed
  { state with
    unclaimed_rewards := add64 state.unclaimed_rewards rewards
    total_earned := add64 state.total_earned rewards }

/-- The pet state written by process_initialize (the Rust function reads
its creation block from the hard-wired constant 800000). -/
def initPet (inscription_id : String) (traits : Traits) (owner_key : Nat) : SatsgotchiState :=
  { inscription_id := inscription_id
    owner := owner_key
    level := .Baby
    status := .Alive
    health := 100
    happiness := 100
    hunger := 0
    birth_block := 800000
    last_fed_block := 800000
    last_played_block := 800000
    last_cleaned_block := 800000
    last_update_block := 800000
    care_mistakes := 0
    perfect_care_days := 0
    poop_count := 0
    sick := false
    total_earned := 0
    unclaimed_rewards := 0
    care_multiplier := 100
    traits := traits
    evolution_eligible_block := 800000 + 1008 }

/-- process_initialize from src/contracts/satsgotchi/src/lib.rs (named
process_init here to satisfy naming constraints of this development). -/
def process_init (owner_signer : Bool) (owner_key : Nat)
    (inscription_id : String) (traits : Traits) :
    Except ProgramError Unit × List SatsgotchiState :=
  if !owner_signer then (.error .MissingRequiredSignature, [])
  else (.ok (), [initPet inscription_id traits owner_key])

/-- process_feed from src/contracts/satsgotchi/src/lib.rs. -/
def process_feed (state : SatsgotchiState) (owner_signer : Bool) (owner_key : Nat) :
    Except ProgramError Unit × List SatsgotchiState :=
  if !owner_signer then (.error .MissingRequiredSignature, [])
  else if state.owner ≠ owner_key then (.error .IllegalOwner, [])
  else if state.status = Status.Dead then (.error (.Custom 1), [])
  else
    let s1 := { state with
      hunger := state.hunger - 50
      health := min (add8 state.health 10) 100
      last_fed_block := get_current_block }
    let s2 :=
      if is_poop_generated then { s1 with poop_count := min (add8 s1.poop_count 1) 8 }
      else s1
    (.ok (), [s2])

/-- process_play from src/contracts/satsgotchi/src/lib.rs. -/
def process_play (state : SatsgotchiState) (owner_signer : Bool) (owner_key : Nat) :
    Except ProgramError Unit × List SatsgotchiState :=
  if !owner_signer then (.error .MissingRequiredSignature, [])
  else if state.owner ≠ owner_key then (.error .IllegalOwner, [])
  else if state.status = Status.Dead then (.error (.Custom 1), [])
  else
    (.ok (), [{ state with
      happiness := min (add8 state.happiness 20) 100
      last_played_block := get_current_block }])

/-- process_clean from src/contracts/satsgotchi/src/lib.rs. -/
def process_clean (state : SatsgotchiState) (owner_signer : Bool) (owner_key : Nat) :
    Except ProgramError Unit × List SatsgotchiState :=
  if !owner_signer then (.error .MissingRequiredSignature, [])
  else if state.owner ≠ owner_key then (.error .IllegalOwner, [])
  else if state.status = Status.Dead then (.error (.Custom 1), [])
  else
    (.ok (), [{ state with
      poop_count := 0
      health := min (add8 state.health 10) 100
      last_cleaned_block := get_current_block }])

/-- process_medicine from src/contracts/satsgotchi/src/lib.rs. -/
def process_medicine (state : SatsgotchiState) (owner_signer : Bool) (owner_key : Nat) :
    Except ProgramError Unit × List SatsgotchiState :=
  if !owner_signer then (.error .MissingRequiredSignature, [])
  else if state.owner ≠ owner_key then (.error .IllegalOwner, [])
  else if state.status = Status.Dead then (.error (.Custom 1), [])
  else
    (.ok (), [{ state with
      sick := false
      health := min (add8 state.health 40) 100 }])

/-- process_update_state from src/contracts/satsgotchi/src/lib.rs.  The
`as u8` casts of the per-day decay quotients are modelled as `% 256`. -/
def process_update_state (state : SatsgotchiState) (current_block : Nat) :
    Except ProgramError Unit × List SatsgotchiState :=
  if state.status = Status.Dead then (.ok (), [])
  else
    let blocks_elapsed := current_block - state.last_update_block
    if blocks_elapsed = 0 then (.ok (), [])
    else
      let hunger_increase := blocks_elapsed / 144 % 256
      let s1 := { state with hunger := min (add8 state.hunger hunger_increase) 100 }
      let health_decay : Nat :=
        match state.level with
        | .Baby => blocks_elapsed / 288 % 256
        | .Child => blocks_elapsed / 144 % 256
        | .Teen => blocks_elapsed / 96 % 256
        | .Adult => blocks_elapsed / 72 % 256
        | .Senior => blocks_elapsed / 48 % 256
        | _ => 0
      let s2 := { s1 with health := s1.health - health_decay }
      let s3 := { s2 with happiness := s2.happiness - blocks_elapsed / 144 % 256 }
      let feed_threshold := get_feed_threshold state.level
      let blocks_since_fed := current_block - state.last_fed_block
      let s4 :=
        if blocks_since_fed > feed_threshold then
          { s3 with care_mistakes := add8 s3.care_mistakes 1 }
        else s3
      let s5 :=
        if s4.health = 0 || should_die s4 current_block then { s4 with status := Status.Dead }
        else s4
      let s6 := accumulate_rewards s5 blocks_elapsed
      (.ok (), [{ s6 with last_update_block := current_block }])

/-- The level-transition match in process_evolve: next level, milestone
reward recorded on total_earned, and the next evolution interval. -/
def next_evolution (level : Level) : Option (Level × Nat × Nat) :=
  match level with
  | .Baby => some (.Child, 50, 4032)
  | .Child => some (.Teen, 250, 17280)
  | .Teen => some (.Adult, 1500, 17280)
  | .Adult => some (.Senior, 25000, 11520)
  | .Senior => some (.Ascended, 2000000, 0)
  | _ => none

/-- process_evolve from src/contracts/satsgotchi/src/lib.rs.  Note the
eligibility check runs before the level match, and no Status check
exists. -/
def process_evolve (state : SatsgotchiState) (owner_signer : Bool) (owner_key : Nat) :
    Except ProgramError Unit × List SatsgotchiState :=
  if !owner_signer then (.error .MissingRequiredSignature, [])
  else if state.owner ≠ owner_key then (.error .IllegalOwner, [])
  else
    let current_block := get_current_block
    if current_block < state.evolution_eligible_block then (.error (.Custom 2), [])
    else
      match next_evolution state.level with
      | none => (.error (.Custom 3), [])
      | some (new_level, reward_amount, next_evolution_blocks) =>
        (.ok (), [{ state with
          level := new_level
          evolution_eligible_block :=
            if next_evolution_blocks > 0 then add64 current_block next_evolution_blocks
            else 18446744073709551615
          total_earned := add64 state.total_earned reward_amount }])

/-- process_claim_rewards from src/contracts/satsgotchi/src/lib.rs. -/
def process_claim_rewards (state : SatsgotchiState) (owner_signer : Bool) (owner_key : Nat) :
    Except ProgramError Unit × List SatsgotchiState :=
  if !owner_signer then (.error .MissingRequiredSignature, [])
  else if state.owner ≠ owner_key then (.error .IllegalOwner, [])
  else if state.unclaimed_rewards = 0 then (.error (.Custom 4), [])
  else (.ok (), [{ state with unclaimed_rewards := 0 }])

/-- process_transfer_ownership from src/contracts/satsgotchi/src/lib.rs. -/
def process_transfer_ownership (state : SatsgotchiState) (oracle_signer : Bool)
    (new_owner : Nat) : Except ProgramError Unit × List SatsgotchiState :=
  if !oracle_signer then (.error .MissingRequiredSignature, [])
  else (.ok (), [{ state with owner := new_owner }])

/-- One pet-program call on an existing pet, with its signer arguments,
mirroring the dispatch in process_instruction. -/
inductive PetCall where
  | feed (owner_signer : Bool) (owner_key : Nat)
  | play (owner_signer : Bool) (owner_key : Nat)
  | clean (owner_signer : Bool) (owner_key : Nat)
  | medicine (owner_signer : Bool) (owner_key : Nat)
  | updateState (current_block : Nat)
  | evolve (owner_signer : Bool) (owner_key : Nat)
  | claimRewards (owner_signer : Bool) (owner_key : Nat)
  | transferOwnership (oracle_signer : Bool) (new_owner : Nat)

/-- Dispatch of process_instruction for the pet program. -/
def petRun (state : SatsgotchiState) : PetCall → Except ProgramError Unit × List SatsgotchiState
  | .feed s k => process_feed state s k
  | .play s k => process_play state s k
  | .clean s k => process_clean state s k
  | .medicine s k => process_medicine state s k
  | .updateState cb => process_update_state state cb
  | .evolve s k => process_evolve state s k
  | .claimRewards s k => process_claim_rewards state s k
  | .transferOwnership s o => process_transfer_ownership state s o

/-- The pet state after the host commits a call's emissions. -/
def petApply (state : SatsgotchiState) (c : PetCall) : SatsgotchiState :=
  (petRun state c).snd.foldl (fun _ w => w) state

/-- Pet states reachable from a successful Initialize by any sequence of
calls with any arguments. -/
inductive PetReach : SatsgotchiState → Prop where
  | init (inscription_id : String) (traits : Traits) (owner_key : Nat) :
      PetReach (initPet inscription_id traits owner_key)
  | step {s : SatsgotchiState} (c : PetCall) : PetReach s → PetReach (petApply s c)

end Satsgotchi

/-! Concrete states used by closed witness and counterexample theorems. -/

def sampleTraits : Satsgotchi.Traits := { rarity := 0, color_shift := 0, pet_type := 0, accessories := [] }

def sampleLedger : Token.TokenState := Token.initLedger "GOTCHI" "GOTCHI" 9 50 1 2

def samplePet : Satsgotchi.SatsgotchiState := Satsgotchi.initPet "ins-1" sampleTraits 1

def deadPet : Satsgotchi.SatsgotchiState :=
  { samplePet with status := .Dead, evolution_eligible_block := 800000 }

def ascendedPet : Satsgotchi.SatsgotchiState :=
  { samplePet with level := .Ascended, evolution_eligible_block := 18446744073709551615 }

/-- C1: the claim says a Burn of more than circulating_supply fails with an
economic error even when the source balance suffices.  The code has no such
check: at source balance 100, burn amount 100, circulating_supply 50, the
call succeeds and the u64 subtraction wraps circulating_supply to
2^64 - 50. -/
theorem c1_burn_wraps_circulating_supply :
    sampleLedger.circulating_supply = 50 ∧
    (Token.process_burn ⟨1, 100⟩ sampleLedger true 1 100).fst = .ok () ∧
    (Token.ledgerAfter sampleLedger
        (Token.process_burn ⟨1, 100⟩ sampleLedger true 1 100).snd).circulating_supply =
      18446744073709551566 :=
  ⟨rfl, rfl, rfl⟩

/-- C5: once a pet's Status is Dead, Feed, Play, Clean and Medicine return an
error and emit no write for every signer configuration, and UpdateState
returns Ok while emitting no write, for every block argument; hence none of
health, happiness, hunger, care_mistakes or poop_count can change. -/
theorem c5_dead_pet_frozen (s : Satsgotchi.SatsgotchiState)
    (h : s.status = Satsgotchi.Status.Dead) (b : Bool) (k current_block : Nat) :
    (∃ e, (Satsgotchi.petRun s (.feed b k)).fst = .error e) ∧
    (Satsgotchi.petRun s (.feed b k)).snd = [] ∧
    (∃ e, (Satsgotchi.petRun s (.play b k)).fst = .error e) ∧
    (Satsgotchi.petRun s (.play b k)).snd = [] ∧
    (∃ e, (Satsgotchi.petRun s (.clean b k)).fst = .error e) ∧
    (Satsgotchi.petRun s (.clean b k)).snd = [] ∧
    (∃ e, (Satsgotchi.petRun s (.medicine b k)).fst = .error e) ∧
    (Satsgotchi.petRun s (.medicine b k)).snd = [] ∧
    (Satsgotchi.petRun s (.updateState current_block)).fst = .ok () ∧
    (Satsgotchi.petRun s (.updateState current_block)).snd = [] := by
  cases b <;>
    refine ⟨?_, ?_, ?_, ?_, ?_, ?_, ?_, ?_, ?_, ?_⟩ <;>
      simp only [Satsgotchi.petRun, Satsgotchi.process_feed, Satsgotchi.process_play,
        Satsgotchi.process_clean, Satsgotchi.process_medicine,
        Satsgotchi.process_update_state, h, Bool.not_true, Bool.not_false] <;>
      split_ifs <;>
      first
        | exact ⟨_, rfl⟩
        | rfl

/-- C5 witness: the frozen-when-dead property instantiated on a concrete
dead pet with a correctly-signed caller. -/
theorem c5_dead_pet_frozen_witness :
    deadPet.status = Satsgotchi.Status.Dead ∧
    ((∃ e, (Satsgotchi.petRun deadPet (.feed true 1)).fst = .error e) ∧
     (Satsgotchi.petRun deadPet (.feed true 1)).snd = [] ∧
     (∃ e, (Satsgotchi.petRun deadPet (.play true 1)).fst = .error e) ∧
     (Satsgotchi.petRun deadPet (.play true 1)).snd = [] ∧
     (∃ e, (Satsgotchi.petRun deadPet (.clean true 1)).fst = .error e) ∧
     (Satsgotchi.petRun deadPet (.clean true 1)).snd = [] ∧
     (∃ e, (Satsgotchi.petRun deadPet (.medicine true 1)).fst = .error e) ∧
     (Satsgotchi.petRun deadPet (.medicine true 1)).snd = [] ∧
     (Satsgotchi.petRun deadPet (.updateState 801000)).fst = .ok () ∧
     (Satsgotchi.petRun deadPet (.updateState 801000)).snd = []) :=
  ⟨rfl, c5_dead_pet_frozen deadPet rfl true 1 801000⟩

/-- C6 counterexample: an Ascended pet whose evolution_eligible_block is
u64::MAX (exactly what Evolve-from-Senior produces) fails the eligibility
check first, so a correctly-signed Evolve returns the not-eligible error
Custom 2, not the MaxLevelReached error Custom 3 the claim demands. -/
theorem c6_evolve_ascended_counterexample :
    ascendedPet.level = Satsgotchi.Level.Ascended ∧
    (Satsgotchi.petRun ascendedPet (.evolve true 1)).fst = .error (.Custom 2) ∧
    (Satsgotchi.petRun ascendedPet (.evolve true 1)).fst ≠ .error (.Custom 3) :=
  ⟨rfl, rfl, by decide⟩

/-- C6 amended: a correctly-signed Evolve on an Ascended pet (or on the
Egg variant outside the evolution chain) always fails, but the error is
the not-eligible error Custom 2 whenever the current block (the hard-wired
800000) is below evolution_eligible_block; only otherwise is it
MaxLevelReached (Custom 3). -/
theorem c6_evolve_ascended_amended (s : Satsgotchi.SatsgotchiState)
    (h : s.level = Satsgotchi.Level.Ascended ∨ s.level = Satsgotchi.Level.Egg) :
    (Satsgotchi.petRun s (.evolve true s.owner)).fst =
      .error (if Satsgotchi.get_current_block < s.evolution_eligible_block
              then .Custom 2 else .Custom 3) := by
  rcases h with h | h <;>
    simp only [Satsgotchi.petRun, Satsgotchi.process_evolve, Satsgotchi.next_evolution, h,
      Bool.not_true, Bool.false_eq_true, if_false, ne_eq, not_true_eq_false] <;>
    split_ifs <;> rfl

/-- C6 amended witness: the amended statement instantiated on the concrete
Ascended pet. -/
theorem c6_evolve_ascended_amended_witness :
    (ascendedPet.level = Satsgotchi.Level.Ascended ∨ ascendedPet.level = Satsgotchi.Level.Egg) ∧
    (Satsgotchi.petRun ascendedPet (.evolve true ascendedPet.owner)).fst =
      .error (if Satsgotchi.get_current_block < ascendedPet.evolution_eligible_block
              then .Custom 2 else .Custom 3) :=
  ⟨Or.inl rfl, c6_evolve_ascended_amended ascendedPet (Or.inl rfl)⟩

/-- C8: the claim says poop generation triggers on 20 percent of block
heights, so some Feeds do not increment poop_count.  In the code the block
height is the hard-wired constant 800000 and 800000 mod 5 = 0, so
is_poop_generated is constantly true and every successful Feed increments
poop_count (capped at 8): here a fresh pet's poop_count goes from 0 to 1. -/
theorem c8_feed_always_generates_poop :
    Satsgotchi.is_poop_generated = true ∧
    (Satsgotchi.process_feed samplePet true 1).fst = .ok () ∧
    (Satsgotchi.process_feed samplePet true 1).snd =
      [{ samplePet with poop_count := samplePet.poop_count + 1 }] :=
  ⟨rfl, rfl, rfl⟩

/-- C9: process_mint_milestone never reads the instruction-supplied amount
field: its entire result (error or writes) is identical for any two amount
arguments, all else equal. -/
theorem c9_mint_milestone_ignores_amount (dst : Token.AccountBalance)
    (st : Token.TokenState) (auth_signer : Bool) (auth_key a1 a2 : Nat)
    (mt : Token.MilestoneType) :
    Token.process_mint_milestone dst st auth_signer auth_key a1 mt =
      Token.process_mint_milestone dst st auth_signer auth_key a2 mt := rfl

/-- The vitals bounds of §3 of the spec: health, happiness, hunger in
[0,100] and poop_count in [0,8] (lower bounds are inherent to Nat). -/
def vitalsInv (s : Satsgotchi.SatsgotchiState) : Prop :=
  s.health ≤ 100 ∧ s.happiness ≤ 100 ∧ s.hunger ≤ 100 ∧ s.poop_count ≤ 8

/-- C4: every pet state reachable from Initialize by any sequence of Feed,
Play, Clean, Medicine, UpdateState, Evolve, ClaimRewards and
TransferOwnership calls, with any arguments, keeps health, happiness and
hunger in [0,100] and poop_count in [0,8]. -/
theorem c4_vitals_invariant (s : Satsgotchi.SatsgotchiState)
    (h : Satsgotchi.PetReach s) : vitalsInv s := by
  induction h with
  | init insc tr k => exact ⟨Nat.le_refl 100, Nat.le_refl 100, Nat.zero_le 100, Nat.zero_le 8⟩
  | @step sp c hr ih =>
    obtain ⟨ih1, ih2, ih3, ih4⟩ := ih
    cases c with
    | feed b k =>
        simp only [Satsgotchi.petApply, Satsgotchi.petRun, Satsgotchi.process_feed]
        split_ifs <;> (try dsimp only [List.foldl]) <;>
          first
            | exact ⟨ih1, ih2, ih3, ih4⟩
            | (refine ⟨?_, ?_, ?_, ?_⟩ <;> (try dsimp only) <;> omega)
    | play b k =>
        simp only [Satsgotchi.petApply, Satsgotchi.petRun, Satsgotchi.process_play]
        split_ifs <;> (try dsimp only [List.foldl]) <;>
          first
            | exact ⟨ih1, ih2, ih3, ih4⟩
            | (refine ⟨?_, ?_, ?_, ?_⟩ <;> (try dsimp only) <;> omega)
    | clean b k =>
        simp only [Satsgotchi.petApply, Satsgotchi.petRun, Satsgotchi.process_clean]
        split_ifs <;> (try dsimp only [List.foldl]) <;>
          first
            | exact ⟨ih1, ih2, ih3, ih4⟩
            | (refine ⟨?_, ?_, ?_, ?_⟩ <;> (try dsimp only) <;> omega)
    | medicine b k =>
        simp only [Satsgotchi.petApply, Satsgotchi.petRun, Satsgotchi.process_medicine]
        split_ifs <;> (try dsimp only [List.foldl]) <;>
          first
            | exact ⟨ih1, ih2, ih3, ih4⟩
            | (refine ⟨?_, ?_, ?_, ?_⟩ <;> (try dsimp only) <;> omega)
    | updateState cb =>
        simp only [Satsgotchi.petApply, Satsgotchi.petRun, Satsgotchi.process_update_state,
          Satsgotchi.accumulate_rewards]
        split_ifs <;> (try dsimp only [List.foldl]) <;>
          first
            | exact ⟨ih1, ih2, ih3, ih4⟩
            | (refine ⟨?_, ?_, ?_, ?_⟩ <;> (try dsimp only) <;> omega)
    | evolve b k =>
        simp only [Satsgotchi.petApply, Satsgotchi.petRun, Satsgotchi.process_evolve]
        split_ifs <;> (try dsimp only [List.foldl]) <;>
          first
            | exact ⟨ih1, ih2, ih3, ih4⟩
            | (rcases hne2 : Satsgotchi.next_evolution sp.level with _ | ⟨nl, rwd, nb⟩ <;>
                simp only [hne2] <;> (try dsimp only [List.foldl]) <;>
                exact ⟨ih1, ih2, ih3, ih4⟩)
    | claimRewards b k =>
        simp only [Satsgotchi.petApply, Satsgotchi.petRun, Satsgotchi.process_claim_rewards]
        split_ifs <;> (try dsimp only [List.foldl]) <;> exact ⟨ih1, ih2, ih3, ih4⟩
    | transferOwnership b o =>
        simp only [Satsgotchi.petApply, Satsgotchi.petRun,
          Satsgotchi.process_transfer_ownership]
        split_ifs <;> (try dsimp only [List.foldl]) <;> exact ⟨ih1, ih2, ih3, ih4⟩

/-- C4 witness: the invariant holds on a concrete freshly initialized pet
and after one reachable Feed step. -/
theorem c4_vitals_invariant_witness :
    vitalsInv samplePet ∧ vitalsInv (Satsgotchi.petApply samplePet (.feed true 1)) :=
  ⟨c4_vitals_invariant _ (Satsgotchi.PetReach.init "ins-1" sampleTraits 1),
   c4_vitals_invariant _
     (Satsgotchi.PetReach.step _ (Satsgotchi.PetReach.init "ins-1" sampleTraits 1))⟩

/-- C10: process_evolve never checks Status: a correctly-signed Evolve on a
Dead pet whose evolution_eligible_block has passed (the code's current
block is the constant 800000) succeeds, advances the level along the
transition table, adds the milestone reward to total_earned, and leaves the
pet Dead. -/
theorem c10_evolve_ignores_death (s : Satsgotchi.SatsgotchiState)
    (nl : Satsgotchi.Level) (reward next_blocks : Nat)
    (hdead : s.status = Satsgotchi.Status.Dead)
    (helig : s.evolution_eligible_block ≤ Satsgotchi.get_current_block)
    (hnext : Satsgotchi.next_evolution s.level = some (nl, reward, next_blocks))
    (hte : s.total_earned + reward < U64) :
    ∃ s2, Satsgotchi.petRun s (.evolve true s.owner) = (.ok (), [s2]) ∧
      s2.level = nl ∧ s2.total_earned = s.total_earned + reward ∧
      s2.status = Satsgotchi.Status.Dead := by
  have hne : ¬ (Satsgotchi.get_current_block < s.evolution_eligible_block) :=
    Nat.not_lt.mpr helig
  simp only [Satsgotchi.petRun, Satsgotchi.process_evolve, Bool.not_true, Bool.false_eq_true,
    if_false, ne_eq, eq_self_iff_true, not_true, if_neg hne, hnext]
  exact ⟨_, rfl, rfl, Nat.mod_eq_of_lt hte, hdead⟩

/-- C10 witness: Evolve succeeds on a concrete dead Baby pet whose
eligibility block has passed, advancing it to Child with reward 50. -/
theorem c10_evolve_ignores_death_witness :
    deadPet.status = Satsgotchi.Status.Dead ∧
    deadPet.evolution_eligible_block ≤ Satsgotchi.get_current_block ∧
    Satsgotchi.next_evolution deadPet.level = some (.Child, 50, 4032) ∧
    deadPet.total_earned + 50 < U64 ∧
    ∃ s2, Satsgotchi.petRun deadPet (.evolve true deadPet.owner) = (.ok (), [s2]) ∧
      s2.level = Satsgotchi.Level.Child ∧ s2.total_earned = deadPet.total_earned + 50 ∧
      s2.status = Satsgotchi.Status.Dead :=
  ⟨rfl, by decide, rfl, by decide,
    c10_evolve_ignores_death deadPet .Child 50 4032 rfl (by decide) rfl (by decide)⟩

/-- The inductive invariant of the mint-only fragment: the cap and pool
fields are the Initialize constants, the used counters stay within their
pools, and circulating_supply accounts exactly for the initial supply plus
everything minted. -/
def mintInv (initial_supply : Nat) (st : Token.TokenState) : Prop :=
  st.max_supply = Token.MAX_SUPPLY ∧
  st.milestone_pool = Token.MILESTONE_POOL ∧
  st.earning_pool = Token.EARNING_POOL ∧
  st.milestone_used ≤ Token.MILESTONE_POOL ∧
  st.earning_used ≤ Token.EARNING_POOL ∧
  st.circulating_supply = initial_supply + st.milestone_used + st.earning_used

lemma milestone_reward_le (mt : Token.MilestoneType) :
    Token.milestone_reward mt ≤ 2000000000000000 := by
  cases mt <;> decide

lemma mintInv_mint_milestone (i : Nat) (hi : i ≤ 400000000000000000)
    (st : Token.TokenState) (dst : Token.AccountBalance) (b : Bool) (k a : Nat)
    (mt : Token.MilestoneType) (h : mintInv i st) :
    mintInv i (Token.ledgerAfter st (Token.process_mint_milestone dst st b k a mt).snd) := by
  obtain ⟨h1, h2, h3, h4, h5, h6⟩ := h
  have hbr := milestone_reward_le mt
  simp only [Token.process_mint_milestone]
  split_ifs <;> (try dsimp only [Token.ledgerAfter, List.foldl]) <;>
    first
      | exact ⟨h1, h2, h3, h4, h5, h6⟩
      | (refine ⟨h1, h2, h3, ?_, h5, ?_⟩ <;>
          simp only [add64, sub64, U64, Token.MILESTONE_POOL, Token.EARNING_POOL,
            Token.MAX_SUPPLY] at * <;>
          omega)

lemma mintInv_mint_earning (i : Nat) (hi : i ≤ 400000000000000000)
    (st : Token.TokenState) (dst : Token.AccountBalance) (b : Bool) (k a : Nat)
    (h : mintInv i st) :
    mintInv i (Token.ledgerAfter st (Token.process_mint_earning dst st b k a).snd) := by
  obtain ⟨h1, h2, h3, h4, h5, h6⟩ := h
  simp only [Token.process_mint_earning]
  split_ifs <;> (try dsimp only [Token.ledgerAfter, List.foldl]) <;>
    first
      | exact ⟨h1, h2, h3, h4, h5, h6⟩
      | (refine ⟨h1, h2, h3, h4, ?_, ?_⟩ <;>
          simp only [add64, sub64, U64, Token.MILESTONE_POOL, Token.EARNING_POOL,
            Token.MAX_SUPPLY] at * <;>
          omega)

lemma mintInv_reachable (i : Nat) (hi : i ≤ 400000000000000000)
    (st : Token.TokenState) (h : Token.TokenReach i st) : mintInv i st := by
  induction h with
  | init name symbol decimals mint_key fee_wallet_key =>
      exact ⟨rfl, rfl, rfl, Nat.zero_le _, Nat.zero_le _, rfl⟩
  | mintMilestoneStep dst b k a mt hr ih => exact mintInv_mint_milestone i hi _ dst b k a mt ih
  | mintEarningStep dst b k a hr ih => exact mintInv_mint_earning i hi _ dst b k a ih

/-- C2 counterexample: the claim quantifies over any initial_supply, but
Initialize never checks it against max_supply, so the ledger produced by
Initialize with initial_supply = max_supply + 1 is a reachable state (the
empty mint sequence) that already violates circulating_supply less-or-equal
max_supply. -/
theorem c2_mint_invariants_counterexample :
    Token.TokenReach 1000000000000000001
      (Token.initLedger "GOTCHI" "GOTCHI" 9 1000000000000000001 1 2) ∧
    ¬ ((Token.initLedger "GOTCHI" "GOTCHI" 9 1000000000000000001 1 2).circulating_supply ≤
        (Token.initLedger "GOTCHI" "GOTCHI" 9 1000000000000000001 1 2).max_supply) :=
  ⟨Token.TokenReach.init "GOTCHI" "GOTCHI" 9 1 2, by decide⟩

/-- C2 amended: for every ledger state reachable from Initialize by any
sequence of MintMilestone and MintEarning calls, provided the initial
supply is at most max_supply - milestone_pool - earning_pool
(400,000,000,000,000,000 base units), the invariants circulating_supply at
most max_supply, milestone_used at most milestone_pool and earning_used at
most earning_pool hold at every observed state. -/
theorem c2_mint_invariants_amended (i : Nat) (hi : i ≤ 400000000000000000)
    (st : Token.TokenState) (h : Token.TokenReach i st) :
    st.circulating_supply ≤ st.max_supply ∧
    st.milestone_used ≤ st.milestone_pool ∧
    st.earning_used ≤ st.earning_pool := by
  obtain ⟨h1, h2, h3, h4, h5, h6⟩ := mintInv_reachable i hi st h
  rw [h1, h2, h3, h6]
  simp only [Token.MAX_SUPPLY, Token.MILESTONE_POOL, Token.EARNING_POOL] at *
  omega

/-- C2 amended witness: the invariants instantiated on a concrete ledger
reached by one MintMilestone from Initialize with initial supply 50. -/
theorem c2_mint_invariants_amended_witness :
    (50 : Nat) ≤ 400000000000000000 ∧
    ((Token.ledgerAfter sampleLedger
        (Token.process_mint_milestone ⟨7, 0⟩ sampleLedger true 1 0 .BabyToChild).snd).circulating_supply ≤
      (Token.ledgerAfter sampleLedger
        (Token.process_mint_milestone ⟨7, 0⟩ sampleLedger true 1 0 .BabyToChild).snd).max_supply ∧
     (Token.ledgerAfter sampleLedger
        (Token.process_mint_milestone ⟨7, 0⟩ sampleLedger true 1 0 .BabyToChild).snd).milestone_used ≤
      (Token.ledgerAfter sampleLedger
        (Token.process_mint_milestone ⟨7, 0⟩ sampleLedger true 1 0 .BabyToChild).snd).milestone_pool ∧
     (Token.ledgerAfter sampleLedger
        (Token.process_mint_milestone ⟨7, 0⟩ sampleLedger true 1 0 .BabyToChild).snd).earning_used ≤
      (Token.ledgerAfter sampleLedger
        (Token.process_mint_milestone ⟨7, 0⟩ sampleLedger true 1 0 .BabyToChild).snd).earning_pool) :=
  ⟨by decide,
    c2_mint_invariants_amended 50 (by decide) _
      (Token.TokenReach.mintMilestoneStep ⟨7, 0⟩ true 1 0 .BabyToChild
        (Token.TokenReach.init "GOTCHI" "GOTCHI" 9 1 2))⟩

/-- C3 counterexample: at amount 2^60 with isBuy = true the u64 product
amount * 50 wraps modulo 2^64, so the fee account gains 230584300921369
instead of the claimed floor(amount * 50 / 10000) = 5764607523034234 (the
transfer still succeeds and fee + net = amount still holds). -/
theorem c3_transfer_fee_counterexample :
    (Token.process_transfer ⟨1, 1152921504606846976⟩ ⟨2, 0⟩ ⟨3, 0⟩ sampleLedger true 1
        1152921504606846976 true).snd =
      [.source ⟨1, 0⟩, .dest ⟨2, 1152690920305925607⟩, .fee ⟨3, 230584300921369⟩,
       .ledger { sampleLedger with total_fees_collected := 230584300921369 }] ∧
    (230584300921369 : Nat) ≠ 1152921504606846976 * 50 / 10000 :=
  ⟨rfl, by decide⟩

/-- C3 amended: for a sufficient, correctly-owned and signed Transfer,
provided amount * fee_bps stays below 2^64 and the three credited u64
counters do not overflow, the fee is exactly floor(amount * fee_bps /
10000) with fee_bps = 50 for buys and 75 for sells, the destination gains
amount minus fee, the fee account gains the fee, and fee + net = amount. -/
theorem c3_transfer_fee_amended (src dst fb : Token.AccountBalance)
    (st : Token.TokenState) (amount bps : Nat) (is_buy : Bool)
    (hbps : bps = if is_buy then Token.BUY_FEE_BPS else Token.SELL_FEE_BPS)
    (hbal : amount ≤ src.balance) (hsrc : src.balance < U64)
    (hfee : amount * bps < U64)
    (hdst : dst.balance + (amount - amount * bps / 10000) < U64)
    (hfb : fb.balance + amount * bps / 10000 < U64)
    (hfc : st.total_fees_collected + amount * bps / 10000 < U64) :
    ∃ src2 dst2 fb2 st2,
      Token.process_transfer src dst fb st true src.owner amount is_buy =
        (.ok (), [.source src2, .dest dst2, .fee fb2, .ledger st2]) ∧
      src2.balance = src.balance - amount ∧
      dst2.balance = dst.balance + (amount - amount * bps / 10000) ∧
      fb2.balance = fb.balance + amount * bps / 10000 ∧
      st2.total_fees_collected = st.total_fees_collected + amount * bps / 10000 ∧
      amount * bps / 10000 + (amount - amount * bps / 10000) = amount := by
  have hble : bps ≤ 10000 := by
    cases is_buy <;> simp [Token.BUY_FEE_BPS, Token.SELL_FEE_BPS] at hbps <;> omega
  have hfle : amount * bps / 10000 ≤ amount := by
    have h1 : amount * bps ≤ amount * 10000 := Nat.mul_le_mul_left amount hble
    have h2 : amount * bps / 10000 ≤ amount * 10000 / 10000 := Nat.div_le_div_right h1
    have h3 : amount * 10000 / 10000 = amount := by omega
    rwa [h3] at h2
  have e1 : mul64 amount bps = amount * bps := Nat.mod_eq_of_lt hfee
  simp only [U64] at hsrc hfee hdst hfb hfc
  simp only [Token.process_transfer, Bool.not_true, Bool.false_eq_true, if_false,
    ne_eq, eq_self_iff_true, not_true, if_neg (Nat.not_lt.mpr hbal), ← hbps, e1]
  obtain ⟨f, hfdef⟩ : ∃ f, f = amount * bps / 10000 := ⟨_, rfl⟩
  rw [← hfdef] at hdst hfb hfc hfle ⊢
  have hamt : amount < 18446744073709551616 := Nat.lt_of_le_of_lt hbal hsrc
  have e2 : sub64 amount f = amount - f := by simp only [sub64, U64]; omega
  have e3 : sub64 src.balance amount = src.balance - amount := by
    simp only [sub64, U64]; omega
  have e4 : add64 dst.balance (amount - f) = dst.balance + (amount - f) := by
    simp only [add64, U64]; omega
  have e5 : add64 fb.balance f = fb.balance + f := by simp only [add64, U64]; omega
  have e6 : add64 st.total_fees_collected f = st.total_fees_collected + f := by
    simp only [add64, U64]; omega
  rw [e2, e3, e4, e5, e6]
  exact ⟨_, _, _, _, rfl, rfl, rfl, rfl, rfl, by omega⟩

/-- C3 amended witness: a concrete in-range buy of 10000 units pays fee 50
and nets 9950. -/
theorem c3_transfer_fee_amended_witness :
    ((50 : Nat) = if true then Token.BUY_FEE_BPS else Token.SELL_FEE_BPS) ∧
    ∃ src2 dst2 fb2 st2,
      Token.process_transfer ⟨1, 10000⟩ ⟨2, 0⟩ ⟨3, 0⟩ sampleLedger true
          (Token.AccountBalance.mk 1 10000).owner 10000 true =
        (.ok (), [.source src2, .dest dst2, .fee fb2, .ledger st2]) ∧
      src2.balance = (Token.AccountBalance.mk 1 10000).balance - 10000 ∧
      dst2.balance = (Token.AccountBalance.mk 2 0).balance + (10000 - 10000 * 50 / 10000) ∧
      fb2.balance = (Token.AccountBalance.mk 3 0).balance + 10000 * 50 / 10000 ∧
      st2.total_fees_collected = sampleLedger.total_fees_collected + 10000 * 50 / 10000 ∧
      10000 * 50 / 10000 + (10000 - 10000 * 50 / 10000) = 10000 :=
  ⟨by decide,
    c3_transfer_fee_amended ⟨1, 10000⟩ ⟨2, 0⟩ ⟨3, 0⟩ sampleLedger 10000 50 true (by decide)
      (by decide) (by decide) (by decide) (by decide) (by decide) (by decide)⟩

/-- C7: for every instruction of both programs, with any accounts, state
and arguments, a call that returns an error emits zero state transitions:
every touched entity is left exactly as it was. -/
theorem c7_no_writes_on_error :
    (∀ (tc : Token.TokenCall) (e : ProgramError),
        (Token.tokenRun tc).fst = .error e → (Token.tokenRun tc).snd = []) ∧
    (∀ (b : Bool) (k : Nat) (insc : String) (tr : Satsgotchi.Traits) (e : ProgramError),
        (Satsgotchi.process_init b k insc tr).fst = .error e →
        (Satsgotchi.process_init b k insc tr).snd = []) ∧
    (∀ (s : Satsgotchi.SatsgotchiState) (pc : Satsgotchi.PetCall) (e : ProgramError),
        (Satsgotchi.petRun s pc).fst = .error e → (Satsgotchi.petRun s pc).snd = []) := by
  refine ⟨?_, ?_, ?_⟩
  · intro tc e h
    cases tc <;>
      (simp only [Token.tokenRun, Token.process_init, Token.process_transfer,
        Token.process_burn, Token.process_mint_milestone, Token.process_mint_earning,
        Token.process_buyback_and_burn] at h ⊢ <;>
       split_ifs at h ⊢ <;> simp_all)
  · intro b k insc tr e h
    simp only [Satsgotchi.process_init] at h ⊢
    split_ifs at h ⊢ <;> simp_all
  · intro s pc e h
    cases pc with
    | evolve b k =>
        simp only [Satsgotchi.petRun, Satsgotchi.process_evolve] at h ⊢
        split_ifs at h ⊢ <;> try simp_all
        rcases hne : Satsgotchi.next_evolution s.level with _ | ⟨nl, rwd, nb⟩ <;> simp_all
    | _ =>
        simp only [Satsgotchi.petRun, Satsgotchi.process_feed, Satsgotchi.process_play,
          Satsgotchi.process_clean, Satsgotchi.process_medicine,
          Satsgotchi.process_update_state, Satsgotchi.process_claim_rewards,
          Satsgotchi.process_transfer_ownership] at h ⊢ <;>
        split_ifs at h ⊢ <;> simp_all

/-- C7 witness: an unsigned Burn fails with MissingRequiredSignature and,
by the theorem, emits no write. -/
theorem c7_no_writes_on_error_witness :
    (Token.tokenRun (.burn ⟨1, 100⟩ sampleLedger false 1 5)).fst =
      .error .MissingRequiredSignature ∧
    (Token.tokenRun (.burn ⟨1, 100⟩ sampleLedger false 1 5)).snd = [] :=
  ⟨rfl, c7_no_writes_on_error.1 (.burn ⟨1, 100⟩ sampleLedger false 1 5)
    .MissingRequiredSignature rfl⟩
